import Mathlib

/-!
Verification of the keyboard-protocol decoders and verifiers of `kbtest.py`.

The development shallowly embeds the two protocol decoders (`parse_kitty`,
`parse_win32`), the event data model (`InputEvent`), and the two verifier
factories (`v_match_kitty`, `v_match_win32`) of the source file, together
with models of the Python builtins they rely on (`str.split`, `int`,
substring membership, `bytes.decode('utf-8', errors='replace')`, `repr`).

Fallible Python code is modelled with `Option`: a decoder or verifier result
of `none` represents an uncaught Python exception (`IndexError` /
`KeyError`); `some e` represents a normal return of the event `e`.
-/

/-! ## Models of the Python builtins used by the source -/

/-- Model of Python string truthiness-driven whitespace for `int(str)`:
the characters `int` strips before parsing.  ASCII and the common Unicode
whitespace code points are covered (exotic Unicode spaces such as OGHAM
SPACE MARK are outside the inputs this development evaluates). -/
def isPySpace (c : Char) : Bool :=
  c.toNat = 32 ∨ (9 ≤ c.toNat ∧ c.toNat ≤ 13) ∨ (28 ≤ c.toNat ∧ c.toNat ≤ 31) ∨
  c.toNat = 133 ∨ c.toNat = 160

/-- Strip `isPySpace` characters from both ends of a character list, as
Python `int(str)` does before parsing the number. -/
def stripSpace (s : List Char) : List Char :=
  ((s.dropWhile isPySpace).reverse.dropWhile isPySpace).reverse

/-- Digit-run tail parser for the Python `int` model: after an initial
digit, accepts further digits with single underscores allowed between two
digits (Python 3.6+ numeric-literal grouping), accumulating the value. -/
def pyDigitsAux (acc : Nat) : List Char → Option Nat
  | [] => some acc
  | c :: cs =>
    if c.isDigit then pyDigitsAux (acc * 10 + (c.toNat - 48)) cs
    else if c = Char.ofNat 95 then
      match cs with
      | [] => none
      | d :: ds =>
        if d.isDigit then pyDigitsAux (acc * 10 + (d.toNat - 48)) ds else none
    else none

/-- Parse a nonempty run of decimal digits (with Python underscore
grouping); `none` models a `ValueError`. -/
def pyDigits : List Char → Option Nat
  | [] => none
  | c :: cs => if c.isDigit then pyDigitsAux (c.toNat - 48) cs else none

/-- Model of Python `int(s)` for a string `s` (as a character list):
strip whitespace, take an optional sign, then a digit run.  `none` models
`ValueError`.  Non-ASCII decimal digits (Unicode `Nd`) are not modelled;
every input this development evaluates is ASCII. -/
def pyInt (s : List Char) : Option Int :=
  match stripSpace s with
  | [] => none
  | c :: cs =>
    if c = Char.ofNat 45 then (pyDigits cs).map (fun n => -(n : Int))
    else if c = Char.ofNat 43 then (pyDigits cs).map (fun n => (n : Int))
    else (pyDigits (c :: cs)).map (fun n => (n : Int))

/-- Model of Python `str.split(sep)` for a single-character separator:
always returns at least one (possibly empty) piece. -/
def pySplit (sep : Char) : List Char → List (List Char)
  | [] => [[]]
  | c :: cs =>
    match pySplit sep cs with
    | [] => [[]]
    | g :: gs => if c = sep then [] :: g :: gs else (c :: g) :: gs

/-- Model of Python `startswith` on character lists. -/
def pyStarts : List Char → List Char → Bool
  | [], _ => true
  | _ :: _, [] => false
  | a :: as, b :: bs => a = b && pyStarts as bs

/-- Model of the Python substring test `needle in hay` on character
lists (an empty needle is contained in everything, as in Python). -/
def pySubstr (n : List Char) : List Char → Bool
  | [] => pyStarts n []
  | c :: cs => pyStarts n (c :: cs) || pySubstr n cs

/-- Model of Python `'+'.join(labels)`/list joining used for modifier
labels. -/
def joinPlus : List String → String
  | [] => ""
  | [x] => x
  | x :: y :: xs => x ++ "+" ++ joinPlus (y :: xs)

/-- Comma-and-space joining of integer decimals, for `pyIntListRepr`. -/
def joinCommaInts : List Int → String
  | [] => ""
  | [x] => toString x
  | x :: y :: ys => toString x ++ ", " ++ joinCommaInts (y :: ys)

/-- Model of the Python `repr` of a list of integers, as interpolated into
the kitty mismatch diagnostic (elements joined by a comma and space). -/
def pyIntListRepr (xs : List Int) : String :=
  "[" ++ joinCommaInts xs ++ "]"

/-- Hex digit character for `repr` escapes. -/
def hexDigit (n : Nat) : Char :=
  if n < 10 then Char.ofNat (48 + n) else Char.ofNat (87 + n)

/-- Escape of a single character inside a single-quoted Python `repr`:
backslash, quote, tab/newline/return specials, and `\xHH` for the other
control characters (the common-case model; the inputs evaluated here are
ASCII). -/
def reprChar (c : Char) : List Char :=
  if c = Char.ofNat 92 then [Char.ofNat 92, Char.ofNat 92]
  else if c = Char.ofNat 39 then [Char.ofNat 92, Char.ofNat 39]
  else if c = Char.ofNat 9 then [Char.ofNat 92, Char.ofNat 116]
  else if c = Char.ofNat 10 then [Char.ofNat 92, Char.ofNat 110]
  else if c = Char.ofNat 13 then [Char.ofNat 92, Char.ofNat 114]
  else if c.toNat < 32 ∨ c.toNat = 127 then
    [Char.ofNat 92, Char.ofNat 120, hexDigit (c.toNat / 16), hexDigit (c.toNat % 16)]
  else [c]

/-- Model of Python `repr` of a string (single-quoted form). -/
def pyRepr (s : List Char) : String :=
  String.mk (Char.ofNat 39 :: s.flatMap reprChar ++ [Char.ofNat 39])

/-- Escape of a single byte inside the Python `repr` of a `bytes` value. -/
def reprByte (b : Nat) : List Char :=
  if b = 92 then [Char.ofNat 92, Char.ofNat 92]
  else if b = 39 then [Char.ofNat 92, Char.ofNat 39]
  else if b = 9 then [Char.ofNat 92, Char.ofNat 116]
  else if b = 10 then [Char.ofNat 92, Char.ofNat 110]
  else if b = 13 then [Char.ofNat 92, Char.ofNat 114]
  else if 32 ≤ b ∧ b ≤ 126 then [Char.ofNat b]
  else [Char.ofNat 92, Char.ofNat 120, hexDigit (b / 16 % 16), hexDigit (b % 16)]

/-- Model of Python `repr` of a `bytes` value, as interpolated into the
verifier diagnostic strings (`f"... ({e.raw})"`). -/
def pyReprBytes (bs : List Nat) : String :=
  String.mk (Char.ofNat 98 :: Char.ofNat 39 :: bs.flatMap reprByte ++ [Char.ofNat 39])

/-! ## Model of `bytes.decode('utf-8', errors='replace')`

CPython replaces each maximal subpart of an ill-formed subsequence with
one U+FFFD, per the Unicode recommendation. -/

/-- The replacement character U+FFFD. -/
def replChar : Char := Char.ofNat 0xFFFD

/-- Continuation-byte test for UTF-8. -/
def isCont (b : Nat) : Bool := 0x80 ≤ b ∧ b ≤ 0xBF

/-- UTF-8 decoding of a byte list with `errors='replace'`: well-formed
sequences decode to their scalar value; each maximal ill-formed subpart
becomes one U+FFFD.  Values outside `0..255` are treated as invalid
bytes. -/
def utf8Dec : List Nat → List Char
  | [] => []
  | b :: bs =>
    if b ≤ 0x7F then Char.ofNat b :: utf8Dec bs
    else if 0xC2 ≤ b ∧ b ≤ 0xDF then
      match bs with
      | [] => [replChar]
      | b1 :: rest =>
        if isCont b1 then Char.ofNat ((b - 0xC0) * 64 + (b1 - 0x80)) :: utf8Dec rest
        else replChar :: utf8Dec (b1 :: rest)
    else if 0xE0 ≤ b ∧ b ≤ 0xEF then
      let lo1 := if b = 0xE0 then 0xA0 else 0x80
      let hi1 := if b = 0xED then 0x9F else 0xBF
      match bs with
      | [] => [replChar]
      | b1 :: rest1 =>
        if lo1 ≤ b1 ∧ b1 ≤ hi1 then
          match rest1 with
          | [] => [replChar]
          | b2 :: rest2 =>
            if isCont b2 then
              Char.ofNat ((b - 0xE0) * 4096 + (b1 - 0x80) * 64 + (b2 - 0x80)) :: utf8Dec rest2
            else replChar :: utf8Dec (b2 :: rest2)
        else replChar :: utf8Dec (b1 :: rest1)
    else if 0xF0 ≤ b ∧ b ≤ 0xF4 then
      let lo1 := if b = 0xF0 then 0x90 else 0x80
      let hi1 := if b = 0xF4 then 0x8F else 0xBF
      match bs with
      | [] => [replChar]
      | b1 :: rest1 =>
        if lo1 ≤ b1 ∧ b1 ≤ hi1 then
          match rest1 with
          | [] => [replChar]
          | b2 :: rest2 =>
            if isCont b2 then
              match rest2 with
              | [] => [replChar]
              | b3 :: rest3 =>
                if isCont b3 then
                  Char.ofNat ((b - 0xF0) * 262144 + (b1 - 0x80) * 4096 +
                    (b2 - 0x80) * 64 + (b3 - 0x80)) :: utf8Dec rest3
                else replChar :: utf8Dec (b3 :: rest3)
            else replChar :: utf8Dec (b2 :: rest2)
        else replChar :: utf8Dec (b1 :: rest1)
    else replChar :: utf8Dec bs

/-- Replace every ESC character (0x1B) with the three letters `ESC`, as
`.replace('\x1b', 'ESC')` does in the source. -/
def escReplace (s : List Char) : List Char :=
  s.flatMap (fun c => if c = Char.ofNat 27 then [Char.ofNat 69, Char.ofNat 83, Char.ofNat 67] else [c])

/-- Model of `decode_utf8_safe` (kbtest.py lines 55-56): UTF-8 decode the
raw bytes with replacement, then substitute `ESC` for every escape
character. -/
def decode_utf8_safe (raw : List Nat) : List Char :=
  escReplace (utf8Dec raw)

/-! ## Data model -/

/-- The protocol-specific payload of an event's `params` dictionary:
empty (RAW/LEGACY/ERR events), the Kitty triple `codes`/`mods`/`type`, or
the Win32 quadruple `vk`/`uc`/`kd`/`cs`. -/
inductive Params where
  | empty : Params
  | kitty (codes : List Int) (mods evType : Int) : Params
  | win32 (vk uc kd cs : Int) : Params
deriving DecidableEq, Repr

/-- Model of `e.params.get('codes', [])` as used by the session loop: the
codes list of a Kitty event, empty otherwise. -/
def Params.codesD : Params → List Int
  | .kitty codes _ _ => codes
  | _ => []

/-- Model of `e.params['vk']` (a `KeyError`, i.e. `none`, when the
dictionary has no such key). -/
def Params.vkGet : Params → Option Int
  | .win32 vk _ _ _ => some vk
  | _ => none

/-- Model of the source's `InputEvent` (kbtest.py lines 60-66). -/
structure InputEvent where
  raw : List Nat
  protocol : String
  params : Params
  is_release : Bool
  desc : String
deriving DecidableEq, Repr

/-- Convenience accessor mirroring `e.params.get('codes', [])`. -/
def eventCodes (e : InputEvent) : List Int := e.params.codesD

/-! ## Kitty decoder (`parse_kitty`, kbtest.py lines 71-193) -/

/-- Membership in `KITTY_MOD_KEYS_RANGE = range(57441, 57455)`
(kbtest.py line 34). -/
def inKittyModKeysRange (p : Int) : Bool := 57441 ≤ p ∧ p < 57455

/-- The functional-key letter table `func_map` (kbtest.py lines 113-117). -/
def funcMapT (t : Char) : Option Int :=
  if t = 'A' then some 57373 else if t = 'B' then some 57374
  else if t = 'C' then some 57375 else if t = 'D' then some 57376
  else if t = 'H' then some 57377 else if t = 'F' then some 57378
  else if t = 'P' then some 57381 else if t = 'Q' then some 57382
  else if t = 'R' then some 57383 else if t = 'S' then some 57384
  else none

/-- The tilde-number table `tilde_map` (kbtest.py lines 120-125) as an
association list; keys are compared as strings, exactly as Python
dictionary lookup does. -/
def tildeAssoc : List (List Char × Int) :=
  [(['5'], 57379), (['6'], 57380), (['2'], 2), (['3'], 3),
   (['1', '1'], 57381), (['1', '2'], 57382), (['1', '3'], 57383), (['1', '4'], 57384),
   (['1', '5'], 57385), (['1', '7'], 57386), (['1', '8'], 57387), (['1', '9'], 57388),
   (['2', '0'], 57389), (['2', '1'], 57390), (['2', '3'], 57391), (['2', '4'], 57392)]

/-- Lookup in `tilde_map` (`key_num in tilde_map` / `tilde_map[key_num]`,
kbtest.py lines 134-135). -/
def tildeMapT (k : List Char) : Option Int :=
  (tildeAssoc.find? (fun p => p.1 = k)).map Prod.snd

/-- The `names` dictionary of the humanizing step (kbtest.py lines
176-181). -/
def kittyNameT (p : Int) : Option String :=
  if p = 13 then some "Enter" else if p = 9 then some "Tab"
  else if p = 27 then some "Escape" else if p = 127 then some "Backspace"
  else if p = 32 then some "Space"
  else if p = 57373 then some "Up" else if p = 57374 then some "Down"
  else if p = 57375 then some "Right" else if p = 57376 then some "Left"
  else if p = 57377 then some "Home" else if p = 57378 then some "End"
  else if p = 57379 then some "PageUp" else if p = 57380 then some "PageDown"
  else if p = 57381 then some "F1" else if p = 57382 then some "F2"
  else if p = 57383 then some "F3" else if p = 57384 then some "F4"
  else none

/-- Modifier labels from `actual_mods = modifiers - 1` (kbtest.py lines
164-169); Python `if actual_mods & 1:` is a nonzero test. -/
def kittyModLabels (actual : Int) : List String :=
  (if Int.land actual 1 ≠ 0 then ["Shift"] else []) ++
  (if Int.land actual 2 ≠ 0 then ["Alt"] else []) ++
  (if Int.land actual 4 ≠ 0 then ["Ctrl"] else []) ++
  (if Int.land actual 8 ≠ 0 then ["Super"] else [])

/-- The key name of the humanizing step (kbtest.py lines 171-185):
`Code:<n>`, overridden by the quoted character for printable ASCII, then by
the `names` table, and otherwise by `ModKey` for the modifier PUA range. -/
def kittyKeyName (p : Int) : String :=
  let base :=
    if 32 ≤ p ∧ p ≤ 126 then String.mk [Char.ofNat 39, Char.ofNat p.toNat, Char.ofNat 39]
    else "Code:" ++ toString p
  match kittyNameT p with
  | some n => n
  | none => if inKittyModKeysRange p then "ModKey" else base

/-- The full description built by the humanizing step (kbtest.py lines
162-189) from the primary code and the raw modifier value. -/
def kittyDesc (p m : Int) : String :=
  let labels := kittyModLabels (m - 1)
  if labels ≠ [] then kittyKeyName p ++ " + " ++ joinPlus labels else kittyKeyName p

/-- The KITTY-tagged event returned at kbtest.py lines 191-193, with the
primary code held as the head of the codes list. -/
def mkKittyEvent (raw : List Nat) (p : Int) (rest : List Int) (m t : Int) : InputEvent :=
  ⟨raw, "KITTY", .kitty (p :: rest) m t, t == 3, kittyDesc p m⟩

/-- The try-block of the Unicode form (kbtest.py lines 94-103): parse the
colon-separated codepoint list of group 0 (default `[0]`) and the
modifier/event-type pair of group 1 (defaults `1`, `1`); `none` models a
`ValueError` caught at line 104. -/
def kittyUParse (groups : List (List Char)) : Option (List Int × Int × Int) := do
  let codes ←
    match groups with
    | g0 :: _ =>
      if g0 ≠ [] then ((pySplit ':' g0).filter (fun x => x ≠ [])).mapM pyInt
      else some [0]
    | [] => some [0]
  match groups with
  | _ :: g1 :: _ =>
    if g1 ≠ [] then do
      let subs := pySplit ':' g1
      let m ← (match subs with
        | s0 :: _ => if s0 = [] then some 1 else pyInt s0
        | [] => some 1)
      let t ← (match subs with
        | _ :: s1 :: _ => pyInt s1
        | _ => some 1)
      pure (codes, m, t)
    else pure (codes, 1, 1)
  | _ => pure (codes, 1, 1)

/-- The modifier/event-type parse of the functional form (kbtest.py lines
147-160): the same group-1 rule, but wrapped in `try/except: pass`, so a
failing field keeps the values assigned so far (defaults `1`, `1`). -/
def kittyFuncMods (groups : List (List Char)) : Int × Int :=
  match groups with
  | _ :: g1 :: _ =>
    if g1 ≠ [] then
      let subs := pySplit ':' g1
      match (match subs with
        | s0 :: _ => if s0 = [] then some 1 else pyInt s0
        | [] => some 1) with
      | none => (1, 1)
      | some m =>
        match subs with
        | _ :: s1 :: _ =>
          (match pyInt s1 with
           | none => (m, 1)
           | some t => (m, t))
        | _ => (m, 1)
    else (1, 1)
  | _ => (1, 1)

/-- The key code of the functional form (kbtest.py lines 127-139): the
letter table for the terminator, or the tilde table on the first group,
with `0` meaning unknown. -/
def kittyFuncCode (terminator : Char) (groups : List (List Char)) : Int :=
  match funcMapT terminator with
  | some c => c
  | none =>
    if terminator = '~' then
      match tildeMapT (groups.headD []) with
      | some c => c
      | none => 0
    else 0

/-- The core of `parse_kitty` on the already-decoded text (kbtest.py lines
75-193).  `none` models the uncaught `IndexError` of
`primary_code = all_codes[0]` (line 163) when the parsed codes list is
empty. -/
def parseKittyDec (raw : List Nat) (decoded : List Char) : Option InputEvent :=
  if !(pyStarts ['E', 'S', 'C', '['] decoded) then
    some ⟨raw, "RAW", .empty, false, pyRepr decoded⟩
  else
    let terminator := decoded.getLastD ' '
    let content := (decoded.drop 4).dropLast
    let groups := pySplit ';' content
    if terminator = 'u' then
      match kittyUParse groups with
      | none => some ⟨raw, "ERR", .empty, false, "Parse Error U"⟩
      | some (codes, m, t) =>
        match codes with
        | [] => none
        | p :: rest => some (mkKittyEvent raw p rest m t)
    else
      let code := kittyFuncCode terminator groups
      if code = 0 then
        some ⟨raw, "LEGACY", .empty, false, "Unknown (" ++ String.mk decoded ++ ")"⟩
      else
        let mt := kittyFuncMods groups
        some (mkKittyEvent raw code [] mt.1 mt.2)

/-- Model of `parse_kitty` (kbtest.py lines 71-193): decode the raw bytes,
then run the Kitty field parser.  `none` models an uncaught exception. -/
def parse_kitty (raw : List Nat) : Option InputEvent :=
  parseKittyDec raw (decode_utf8_safe raw)

/-! ## Win32 decoder (`parse_win32`, kbtest.py lines 195-240) -/

/-- The `vk_map` virtual-key name table (kbtest.py lines 219-224). -/
def vkMapT (vk : Int) : Option String :=
  if vk = 13 then some "Enter" else if vk = 8 then some "Backspace"
  else if vk = 9 then some "Tab" else if vk = 27 then some "Escape"
  else if vk = 32 then some "Space"
  else if vk = 37 then some "Left" else if vk = 38 then some "Up"
  else if vk = 39 then some "Right" else if vk = 40 then some "Down"
  else if vk = 33 then some "PageUp" else if vk = 34 then some "PageDown"
  else if vk = 35 then some "End" else if vk = 36 then some "Home"
  else if vk = 112 then some "F1" else if vk = 113 then some "F2"
  else if vk = 17 then some "Ctrl" else if vk = 16 then some "Shift"
  else if vk = 18 then some "Alt"
  else none

/-- Control-key-state modifier labels (kbtest.py lines 212-217). -/
def win32ModLabels (cs : Int) : List String :=
  (if Int.land cs 16 ≠ 0 then ["Shift"] else []) ++
  (if Int.land cs 1 ≠ 0 then ["Right Alt"] else []) ++
  (if Int.land cs 2 ≠ 0 then ["Left Alt"] else []) ++
  (if Int.land cs 4 ≠ 0 then ["Right Ctrl"] else []) ++
  (if Int.land cs 8 ≠ 0 then ["Left Ctrl"] else [])

/-- Win32 key-name rule (kbtest.py lines 226-228): the virtual-key table
name (or `VK:<n>`), preferring the quoted character when the unicode-char
field is strictly between 32 and 127. -/
def win32KeyName (vk uc : Int) : String :=
  let base := match vkMapT vk with | some n => n | none => "VK:" ++ toString vk
  if 32 < uc ∧ uc < 127 then String.mk [Char.ofNat 39, Char.ofNat uc.toNat, Char.ofNat 39]
  else base

/-- The WIN32-tagged event returned at kbtest.py lines 230-237, including
the textual-overlap suppression of modifier labels (line 231: a label is
dropped when the key name occurs in it as a substring). -/
def mkWin32Event (raw : List Nat) (vk uc kd cs : Int) : InputEvent :=
  let kn := win32KeyName vk uc
  let filtered := (win32ModLabels cs).filter (fun m => !(pySubstr kn.toList m.toList))
  let desc := if filtered ≠ [] then kn ++ " + " ++ joinPlus filtered else kn
  ⟨raw, "WIN32", .win32 vk uc kd cs, kd == 0, desc⟩

/-- Model of `int(parts[i] or 0)`: an empty field is the integer `0`, a
nonempty field goes through `int`. -/
def orZeroInt (s : List Char) : Option Int :=
  if s = [] then some 0 else pyInt s

/-- The try-block of `parse_win32` (kbtest.py lines 205-210): pad the
semicolon-split fields to six with `'0'`, then parse fields 0, 2, 3 and 4
(vk, uc, kd, cs).  Fields 1 (scan code) and 5 (repeat count) are never
parsed.  `none` models a `ValueError` caught at line 239. -/
def win32Fields (parts0 : List (List Char)) : Option (Int × Int × Int × Int) := do
  let parts := parts0 ++ List.replicate (6 - parts0.length) ['0']
  let vk ← orZeroInt (parts.headD [])
  let uc ← orZeroInt ((parts.drop 2).headD [])
  let kd ← orZeroInt ((parts.drop 3).headD [])
  let cs ← orZeroInt ((parts.drop 4).headD [])
  pure (vk, uc, kd, cs)

/-- The core of `parse_win32` on the already-decoded text (kbtest.py lines
199-240).  `parse_win32` is total: every branch returns an event. -/
def parseWin32Dec (raw : List Nat) (decoded : List Char) : InputEvent :=
  if !(decoded.getLast? == some '_') || !(pyStarts ['E', 'S', 'C', '['] decoded) then
    ⟨raw, "RAW", .empty, false, pyRepr decoded⟩
  else
    let content := (decoded.drop 4).dropLast
    match win32Fields (pySplit ';' content) with
    | none => ⟨raw, "ERR", .empty, false, "Parse Error"⟩
    | some (vk, uc, kd, cs) => mkWin32Event raw vk uc kd cs

/-- Model of `parse_win32` (kbtest.py lines 195-240). -/
def parse_win32 (raw : List Nat) : InputEvent :=
  parseWin32Dec raw (decode_utf8_safe raw)

/-! ## Verifiers (kbtest.py lines 244-277) -/

/-- Model of the closure returned by `v_match_kitty(target_code,
target_mods)` (kbtest.py lines 244-259).  The result pair is Python's
`(ok, msg)`; `(false, none)` is the Ignored outcome, `(false, some m)` a
mismatch with diagnostic, `(true, some "OK")` a match.  An outer `none`
models an uncaught `KeyError`/`IndexError` on the params accesses. -/
def v_match_kitty (target_code target_mods : Int) (e : InputEvent) :
    Option (Bool × Option String) :=
  if pySubstr "ModKey".toList e.desc.toList then some (false, none)
  else if e.protocol ≠ "KITTY" then
    some (false, some ("Wrong Protocol (" ++ pyReprBytes e.raw ++ ")"))
  else
    match e.params with
    | .kitty codes mods _ =>
      match codes with
      | [] => none
      | primary :: _ =>
        if inKittyModKeysRange primary then some (false, none)
        else if !(codes.contains target_code) then
          some (false, some ("Exp " ++ toString target_code ++ ", got " ++ pyIntListRepr codes))
        else if mods ≠ target_mods then
          some (false, some ("Exp Mod " ++ toString target_mods ++ ", got " ++ toString mods))
        else some (true, some "OK")
    | _ => none

/-- Model of the closure returned by `v_match_win32(vk, cs_mask,
require_char)` (kbtest.py lines 261-277), with the same result
conventions as `v_match_kitty`. -/
def v_match_win32 (vk : Int) (cs_mask require_char : Option Int) (e : InputEvent) :
    Option (Bool × Option String) :=
  if e.protocol = "WIN32" then
    match e.params.vkGet with
    | none => none
    | some evk =>
      if evk = 16 ∨ evk = 17 ∨ evk = 18 then some (false, none)
      else
        match e.params with
        | .win32 _ euc _ ecs =>
          if evk ≠ vk then
            some (false, some ("Exp VK " ++ toString vk ++ ", got " ++ toString evk))
          else
            match cs_mask with
            | some mask =>
              if Int.land ecs mask ≠ mask then
                some (false, some ("CS Mask Mismatch. Got " ++ toString ecs))
              else
                match require_char with
                | some rc =>
                  if euc ≠ rc then
                    some (false, some ("Exp Char " ++ toString rc ++ ", got " ++ toString euc))
                  else some (true, some "OK")
                | none => some (true, some "OK")
            | none =>
              match require_char with
              | some rc =>
                if euc ≠ rc then
                  some (false, some ("Exp Char " ++ toString rc ++ ", got " ++ toString euc))
                else some (true, some "OK")
              | none => some (true, some "OK")
        | _ => none
  else some (false, some ("Wrong Protocol (" ++ pyReprBytes e.raw ++ ")"))

/-- Model of how the session loop consumes a verifier result `(ok, msg)`
for a non-release event (kbtest.py lines 441-449): the first component
says whether the test passes, the second whether a FAIL line is logged
(`elif msg:` — only a truthy, i.e. nonempty, message logs). -/
def verdictEffect (r : Bool × Option String) : Bool × Bool :=
  (r.1, !r.1 && (match r.2 with | none => false | some m => m ≠ ""))

/-! ## Supporting lemmas about the builtin models -/

theorem pySplit_cons (sep c : Char) (cs : List Char) :
    pySplit sep (c :: cs) =
      match pySplit sep cs with
      | [] => [[]]
      | g :: gs => if c = sep then [] :: g :: gs else (c :: g) :: gs := rfl

theorem pySplit_ne_nil (sep : Char) (l : List Char) : pySplit sep l ≠ [] := by
  cases l with
  | nil => simp [pySplit]
  | cons c cs =>
    rw [pySplit_cons]
    split
    · simp
    · split <;> simp

theorem pySplit_sepFree (sep : Char) (a : List Char) (h : ∀ c ∈ a, c ≠ sep) :
    pySplit sep a = [a] := by
  induction a with
  | nil => rfl
  | cons c cs ih =>
    have hc : c ≠ sep := h c (List.mem_cons_self c cs)
    have ht := ih (fun x hx => h x (List.mem_cons_of_mem c hx))
    rw [pySplit_cons, ht]
    dsimp only
    rw [if_neg hc]

theorem pySplit_append (sep : Char) (a b : List Char) (h : ∀ c ∈ a, c ≠ sep) :
    pySplit sep (a ++ sep :: b) = a :: pySplit sep b := by
  induction a with
  | nil =>
    rw [List.nil_append, pySplit_cons]
    cases hb : pySplit sep b with
    | nil => exact absurd hb (pySplit_ne_nil sep b)
    | cons g gs =>
      dsimp only
      rw [if_pos rfl, ← hb]
  | cons c cs ih =>
    have hc : c ≠ sep := h c (List.mem_cons_self c cs)
    have ht := ih (fun x hx => h x (List.mem_cons_of_mem c hx))
    rw [List.cons_append, pySplit_cons, ht]
    dsimp only
    rw [if_neg hc]

theorem pyDigitsAux_total (acc : Nat) (cs : List Char) (h : ∀ c ∈ cs, c.isDigit = true) :
    ∃ n, pyDigitsAux acc cs = some n := by
  induction cs generalizing acc with
  | nil => exact ⟨acc, rfl⟩
  | cons c cs ih =>
    have hc := h c (List.mem_cons_self c cs)
    unfold pyDigitsAux
    rw [if_pos hc]
    exact ih _ (fun x hx => h x (List.mem_cons_of_mem c hx))

theorem pyDigits_total (s : List Char) (hne : s ≠ []) (h : ∀ c ∈ s, c.isDigit = true) :
    ∃ n, pyDigits s = some n := by
  cases s with
  | nil => exact absurd rfl hne
  | cons c cs =>
    unfold pyDigits
    dsimp only
    rw [if_pos (h c (List.mem_cons_self c cs))]
    exact pyDigitsAux_total _ _ (fun x hx => h x (List.mem_cons_of_mem c hx))

theorem isDigit_toNat (c : Char) (h : c.isDigit = true) :
    48 ≤ c.toNat ∧ c.toNat ≤ 57 := by
  simp [Char.isDigit] at h
  obtain ⟨h1, h2⟩ := h
  exact ⟨h1, h2⟩

theorem digit_not_space (c : Char) (h : c.isDigit = true) : isPySpace c = false := by
  obtain ⟨h1, h2⟩ := isDigit_toNat c h
  unfold isPySpace
  apply decide_eq_false
  omega

theorem dropWhile_of_none (p : Char → Bool) (l : List Char)
    (h : ∀ c ∈ l, p c = false) : l.dropWhile p = l := by
  cases l with
  | nil => rfl
  | cons c cs => simp [List.dropWhile_cons, h c (List.mem_cons_self c cs)]

theorem stripSpace_digits (s : List Char) (h : ∀ c ∈ s, c.isDigit = true) :
    stripSpace s = s := by
  unfold stripSpace
  rw [dropWhile_of_none _ s (fun c hc => digit_not_space c (h c hc)),
    dropWhile_of_none _ s.reverse
      (fun c hc => digit_not_space c (h c (List.mem_reverse.mp hc))),
    List.reverse_reverse]

theorem pyInt_digits (s : List Char) (hne : s ≠ []) (h : ∀ c ∈ s, c.isDigit = true) :
    ∃ n, pyInt s = some n := by
  unfold pyInt
  rw [stripSpace_digits s h]
  cases s with
  | nil => exact absurd rfl hne
  | cons c cs =>
    obtain ⟨h48, h57⟩ := isDigit_toNat c (h c (List.mem_cons_self c cs))
    have hm : c ≠ Char.ofNat 45 := by
      intro hh
      rw [hh] at h48
      exact absurd h48 (by decide)
    have hp : c ≠ Char.ofNat 43 := by
      intro hh
      rw [hh] at h48
      exact absurd h48 (by decide)
    dsimp only
    rw [if_neg hm, if_neg hp]
    obtain ⟨n, hn⟩ := pyDigits_total (c :: cs) (by simp) h
    exact ⟨n, by rw [hn]; rfl⟩

theorem digit_ne_semi (c : Char) (h : c.isDigit = true) : c ≠ ';' := by
  intro hh
  rw [hh] at h
  exact absurd h (by decide)

theorem funcMapT_range (t : Char) (c : Int) (h : funcMapT t = some c) :
    57373 ≤ c ∧ c ≤ 57384 := by
  unfold funcMapT at h
  repeat' first
  | (injection h with h'; omega)
  | cases h
  | split at h

theorem tildeMapT_range (k : List Char) (c : Int) (h : tildeMapT k = some c) :
    c = 2 ∨ c = 3 ∨ (57379 ≤ c ∧ c ≤ 57392) := by
  unfold tildeMapT at h
  rw [Option.map_eq_some'] at h
  obtain ⟨p, hp, rfl⟩ := h
  have hm := List.mem_of_find?_eq_some hp
  have hmm : p.2 ∈ tildeAssoc.map Prod.snd := List.mem_map_of_mem Prod.snd hm
  simp only [tildeAssoc, List.map_cons, List.map_nil, List.mem_cons,
    List.not_mem_nil, or_false] at hmm
  omega

theorem kittyFuncCode_cases (t : Char) (g : List (List Char))
    (h : kittyFuncCode t g ≠ 0) :
    kittyFuncCode t g = 2 ∨ kittyFuncCode t g = 3 ∨
      (57373 ≤ kittyFuncCode t g ∧ kittyFuncCode t g ≤ 57392) := by
  unfold kittyFuncCode at h ⊢
  cases hf : funcMapT t with
  | some c =>
    have := funcMapT_range t c hf
    simp only [hf]
    omega
  | none =>
    simp only [hf] at h ⊢
    by_cases ht : t = '~'
    · simp only [if_pos ht] at h ⊢
      cases htl : tildeMapT (g.headD []) with
      | some c =>
        have := tildeMapT_range _ c htl
        simp only [htl]
        omega
      | none =>
        rw [htl] at h
        exact absurd rfl h
    · rw [if_neg ht] at h
      exact absurd rfl h

theorem kitty_functional_never_err (raw : List Nat) (e : InputEvent)
    (h : parse_kitty raw = some e)
    (hu : (decode_utf8_safe raw).getLastD ' ' ≠ 'u') :
    e.protocol ≠ "ERR" := by
  unfold parse_kitty parseKittyDec at h
  split at h
  · injection h with h'
    subst h'
    simp
  · dsimp only at h
    split at h
    · exact absurd (by assumption) hu
    · split at h
      · injection h with h'
        subst h'
        simp
      · injection h with h'
        subst h'
        simp [mkKittyEvent]


/-- C1: the claim says `parse_kitty` never raises an unhandled fault on
any input byte sequence.  The frame `ESC [ : u` refutes it: the Unicode
form parses group 0 `":"` into an empty codes list (both colon subfields
are empty and are filtered out), no `ValueError` occurs, and the
humanizing step's `all_codes[0]` (kbtest.py line 163) then raises an
uncaught `IndexError` — modelled here by the decoder returning `none`
instead of an event. -/
theorem kitty_uncaught_fault_on_empty_subfields :
    parse_kitty [27, 91, 58, 117] = none := by decide

/-- C2 counterexample: the frame `ESC [ 9 9 ~` decodes to a `LEGACY`
event whose params are empty, so its codes list is empty although the
event is not tagged as a parse error — refuting the claimed invariant
that `all_codes` is non-empty unless `protocol = ParseError`. -/
theorem legacy_event_without_codes_cex :
    (parse_kitty [27, 91, 57, 57, 126]).map (fun e => (e.protocol, eventCodes e)) =
      some ("LEGACY", []) := by decide
/-- C2 (amended): every event returned by parse_kitty that is tagged
KITTY carries a non-empty codes list whose head is the primary code the
humanizing step used to build the description; every event with any other
tag (RAW, LEGACY, ERR) carries empty params, hence no codes at all. -/
theorem kitty_event_codes_invariant (raw : List Nat) (e : InputEvent)
    (h : parse_kitty raw = some e) :
    (e.protocol = "KITTY" → ∃ p rest m t, e.params = .kitty (p :: rest) m t ∧ e.desc = kittyDesc p m) ∧
    (e.protocol ≠ "KITTY" → e.params = .empty) := by
  unfold parse_kitty parseKittyDec at h
  split at h
  · injection h with h'
    subst h'
    exact ⟨fun hp => by simp at hp, fun _ => rfl⟩
  · dsimp only at h
    split at h
    · split at h
      · injection h with h'
        subst h'
        exact ⟨fun hp => by simp at hp, fun _ => rfl⟩
      · split at h
        · exact absurd h (by simp)
        · injection h with h'
          subst h'
          exact ⟨fun _ => ⟨_, _, _, _, rfl, rfl⟩, fun hp => absurd rfl hp⟩
    · split at h
      · injection h with h'
        subst h'
        exact ⟨fun hp => by simp at hp, fun _ => rfl⟩
      · injection h with h'
        subst h'
        exact ⟨fun _ => ⟨_, _, _, _, rfl, rfl⟩, fun hp => absurd rfl hp⟩

/-- C2 witness: the amended invariant instantiated at the Unicode frame
`ESC [ 9 7 u`, whose decoded event is `KITTY` with codes `[97]`. -/
theorem kitty_event_codes_invariant_witness :
    ∃ p rest m t,
      (InputEvent.mk [27, 91, 57, 55, 117] "KITTY" (Params.kitty [97] 1 1) false "'a'").params =
        Params.kitty (p :: rest) m t ∧
      (InputEvent.mk [27, 91, 57, 55, 117] "KITTY" (Params.kitty [97] 1 1) false "'a'").desc =
        kittyDesc p m :=
  (kitty_event_codes_invariant [27, 91, 57, 55, 117]
    ⟨[27, 91, 57, 55, 117], "KITTY", Params.kitty [97] 1 1, false, "'a'"⟩ (by decide)).1 rfl

/-- C3 counterexample: the functional-form frame `ESC [ 1 ; x D` has a
non-integer modifier field `x`, yet decodes to a normal KITTY event with
silently defaulted modifiers (1) and event type (1) instead of a parse
error — the source's bare `except: pass` (kbtest.py lines 159-160)
swallows the `ValueError`. -/
theorem functional_mod_failure_silently_defaults_cex :
    parse_kitty [27, 91, 49, 59, 120, 68] =
      some ⟨[27, 91, 49, 59, 120, 68], "KITTY", Params.kitty [57376] 1 1, false, "Left"⟩ := by
  decide

/-- C3 (amended): for every input frame, an integer-parse failure in the
Kitty Unicode form (the modelled try-block `kittyUParse` returns `none`,
which happens exactly when some `int()` call fails) yields the ERR event
"Parse Error U", and an integer-parse failure in the Win32 vk/uc/kd/cs
fields (`win32Fields` returns `none`) yields the ERR event "Parse Error"
— in both cases a returned event, never an uncaught exception; but a
frame whose terminator is not `u` (the functional form) can never produce
an ERR event: its modifier-group parse failures are silently swallowed
and defaults are used. -/
theorem parse_error_reporting_amended (raw : List Nat) (e : InputEvent) :
    (pyStarts ['E', 'S', 'C', '['] (decode_utf8_safe raw) = true →
      (decode_utf8_safe raw).getLastD ' ' = 'u' →
      kittyUParse (pySplit ';' (((decode_utf8_safe raw).drop 4).dropLast)) = none →
      parse_kitty raw = some ⟨raw, "ERR", Params.empty, false, "Parse Error U"⟩) ∧
    ((decode_utf8_safe raw).getLast? = some '_' →
      pyStarts ['E', 'S', 'C', '['] (decode_utf8_safe raw) = true →
      win32Fields (pySplit ';' (((decode_utf8_safe raw).drop 4).dropLast)) = none →
      parse_win32 raw = ⟨raw, "ERR", Params.empty, false, "Parse Error"⟩) ∧
    (parse_kitty raw = some e → (decode_utf8_safe raw).getLastD ' ' ≠ 'u' →
      e.protocol ≠ "ERR") := by
  refine ⟨?_, ?_, fun h hu => kitty_functional_never_err raw e h hu⟩
  · intro hs ht hk
    unfold parse_kitty parseKittyDec
    simp only [hs, Bool.not_true]
    rw [if_neg (by decide)]
    rw [if_pos ht, hk]
  · intro hl hs hk
    unfold parse_win32 parseWin32Dec
    simp only [hl, hs, Bool.not_true, beq_self_eq_true, Bool.or_false]
    rw [if_neg (by decide)]
    rw [hk]

/-- C3 witness: the three conjuncts instantiated — the Unicode frame
`ESC [ x u` and the Win32 frame `ESC [ x _` (whose field `x` fails
`int()`) produce the two ERR events, while the functional-form frame
`ESC [ 1 ; x D` (same failing field) produces a non-ERR event. -/
theorem parse_error_reporting_amended_witness :
    parse_kitty [27, 91, 120, 117] =
      some ⟨[27, 91, 120, 117], "ERR", Params.empty, false, "Parse Error U"⟩ ∧
    parse_win32 [27, 91, 120, 95] =
      ⟨[27, 91, 120, 95], "ERR", Params.empty, false, "Parse Error"⟩ ∧
    (InputEvent.mk [27, 91, 49, 59, 120, 68] "KITTY" (Params.kitty [57376] 1 1) false
      "Left").protocol ≠ "ERR" :=
  ⟨(parse_error_reporting_amended [27, 91, 120, 117] ⟨[], "RAW", Params.empty, false, ""⟩).1
      (by decide) (by decide) (by decide),
   (parse_error_reporting_amended [27, 91, 120, 95] ⟨[], "RAW", Params.empty, false, ""⟩).2.1
      (by decide) (by decide) (by decide),
   (parse_error_reporting_amended [27, 91, 49, 59, 120, 68]
      ⟨[27, 91, 49, 59, 120, 68], "KITTY", Params.kitty [57376] 1 1, false, "Left"⟩).2.2
      (by decide) (by decide)⟩

/-- C4 counterexample: a frame of only the escape byte decodes to a RAW
event with empty params — there is no key-code field at all, so the
event's codes list is empty rather than containing 27; the claim's "key
code is 27" fails (the "not a ParseError" half does hold). -/
theorem bare_escape_no_code_27_cex :
    (parse_kitty [27]).map eventCodes = some [] ∧
    (parse_kitty [27]).map InputEvent.protocol = some "RAW" := by decide

/-- C4 (amended): a frame consisting of only the escape byte 0x1B decodes
to a distinct RAW-tagged event (not a ParseError): its description is the
repr of the ESC-substituted text, `'ESC'`, and its params are empty — no
key code 27 is reported. -/
theorem bare_escape_raw_event :
    parse_kitty [27] =
      some ⟨[27], "RAW", Params.empty, false,
        String.mk [Char.ofNat 39, 'E', 'S', 'C', Char.ofNat 39]⟩ := by decide

/-- C5 counterexample: the tilde frame `ESC [ 2 ~` (Insert) decodes to a
KITTY event whose single code is the literal 2, which is far below the
private-use area (U+E000 = 57344) — refuting the claim that every
table-mapped functional key yields a PUA code. -/
theorem tilde_insert_literal_code_cex :
    (parse_kitty [27, 91, 50, 126]).map (fun e => (e.protocol, eventCodes e)) =
      some ("KITTY", [2]) ∧ ¬(57344 ≤ (2 : Int)) := by decide
/-- C5 (amended): every KITTY event decoded from a functional-form frame
(terminator not `u`) carries exactly one code, and that code is either a
named-key private-use-area code in 57373-57392 (arrows, Home/End, paging,
F1-F12) or one of the two literal codes 2 (Insert) and 3 (Delete), which
are not PUA codes. -/
theorem functional_form_code_range (raw : List Nat) (e : InputEvent)
    (h : parse_kitty raw = some e)
    (hu : (decode_utf8_safe raw).getLastD ' ' ≠ 'u')
    (hk : e.protocol = "KITTY") :
    ∃ c m t, e.params = .kitty [c] m t ∧
      (c = 2 ∨ c = 3 ∨ (57373 ≤ c ∧ c ≤ 57392)) := by
  unfold parse_kitty parseKittyDec at h
  split at h
  · injection h with h'
    subst h'
    simp at hk
  · dsimp only at h
    split at h
    · exact absurd (by assumption) hu
    · split at h
      · injection h with h'
        subst h'
        simp at hk
      · injection h with h'
        subst h'
        exact ⟨_, _, _, rfl, kittyFuncCode_cases _ _ (by assumption)⟩

/-- C5 witness: the amended statement applied to the frame consisting of
the bytes of `ESC [ 5 ~` (PageUp), whose single code 57379 lies in the
PUA named-key range. -/
theorem functional_form_code_range_witness :
    ∃ c m t,
      (InputEvent.mk [27, 91, 53, 126] "KITTY" (Params.kitty [57379] 1 1) false
        "PageUp").params = Params.kitty [c] m t ∧
      (c = 2 ∨ c = 3 ∨ (57373 ≤ c ∧ c ≤ 57392)) :=
  functional_form_code_range [27, 91, 53, 126]
    ⟨[27, 91, 53, 126], "KITTY", Params.kitty [57379] 1 1, false, "PageUp"⟩
    (by decide) (by decide) rfl

/-- C6: the Kitty functional-form frame `ESC [ 1 ; 1 : 3 D` decodes to a
KITTY event with primary code 57376 (Left), raw modifier value 1, event
kind 3, `is_release = true` and display name "Left". -/
theorem kitty_left_release_scenario :
    parse_kitty [27, 91, 49, 59, 49, 58, 51, 68] =
      some ⟨[27, 91, 49, 59, 49, 58, 51, 68], "KITTY", Params.kitty [57376] 1 3, true,
        "Left"⟩ := by decide

/-- C7: the Win32 frame `ESC [ 6 5 ; 0 ; 9 7 ; 1 ; 8 ; 1 _` decodes to a
WIN32 event with vk 65, uc 97, kd 1, cs 8, `is_release = false` and
display name "'a' + Left Ctrl": the printable unicode-char field 97 is
preferred over the virtual-key table (which has no entry for 65 and would
give "VK:65"), and the "Left Ctrl" label is shown because the key name
"'a'" does not occur in it. -/
theorem win32_letter_a_scenario :
    parse_win32 [27, 91, 54, 53, 59, 48, 59, 57, 55, 59, 49, 59, 56, 59, 49, 95] =
      ⟨[27, 91, 54, 53, 59, 48, 59, 57, 55, 59, 49, 59, 56, 59, 49, 95], "WIN32",
        Params.win32 65 97 1 8, false, "'a' + Left Ctrl"⟩ ∧
    win32KeyName 65 97 = "'a'" ∧ win32KeyName 65 0 = "VK:65" := by decide

/-- C8: the Win32 verifier's modifier check is a superset check: with
the other checks satisfied (WIN32 protocol, matching non-modifier
virtual-key, no required character), the verifier matches exactly when
every bit of the expected mask is present in the event's
control-key-state bitmask. -/
theorem win32_modifier_superset_check (tvk : Int) (raw : List Nat) (b : Bool) (d : String)
    (vk uc kd cs mask : Int)
    (hvk : vk = tvk) (hnm : ¬(vk = 16 ∨ vk = 17 ∨ vk = 18)) :
    (v_match_win32 tvk (some mask) none ⟨raw, "WIN32", .win32 vk uc kd cs, b, d⟩ =
      some (true, some "OK")) ↔ Int.land cs mask = mask := by
  subst hvk
  by_cases hm : Int.land cs mask = mask
  · simp [v_match_win32, Params.vkGet, hnm, hm]
  · simp [v_match_win32, Params.vkGet, hnm, hm]

/-- C8 witness: a control-key-state of 24 = 0x0008 Left-Ctrl + 0x0010
Shift satisfies an expected mask of 0x0008. -/
theorem win32_modifier_superset_check_witness :
    v_match_win32 65 (some 8) none
      ⟨[27], "WIN32", Params.win32 65 97 1 24, false, "'a'"⟩ = some (true, some "OK") :=
  (win32_modifier_superset_check 65 [27] false "'a'" 65 97 1 24 8 rfl (by decide)).mpr
    (by decide)

/-- C9: pure-modifier-key events are Ignored, not Mismatched: a KITTY
event whose primary code lies in `KITTY_MOD_KEYS_RANGE` (57441-57454) and
a WIN32 event whose virtual-key is Shift (16), Ctrl (17) or Alt (18) both
make the verifier return `(false, none)` — no diagnostic message — and
the session loop neither counts a pass nor logs a FAIL line for that
result. -/
theorem pure_modifier_events_ignored
    (codes : List Int) (p : Int) (rest : List Int) (m t tc tm : Int)
    (raw : List Nat) (b : Bool) (d : String)
    (vk uc kd cs tvk : Int) (tmask tch : Option Int)
    (raw2 : List Nat) (b2 : Bool) (d2 : String) :
    (codes = p :: rest → 57441 ≤ p → p < 57455 →
      v_match_kitty tc tm ⟨raw, "KITTY", .kitty codes m t, b, d⟩ = some (false, none) ∧
      verdictEffect (false, none) = (false, false)) ∧
    (vk = 16 ∨ vk = 17 ∨ vk = 18 →
      v_match_win32 tvk tmask tch ⟨raw2, "WIN32", .win32 vk uc kd cs, b2, d2⟩ =
        some (false, none) ∧
      verdictEffect (false, none) = (false, false)) := by
  constructor
  · intro hc h1 h2
    subst hc
    refine ⟨?_, by decide⟩
    have hr : inKittyModKeysRange p = true := by
      unfold inKittyModKeysRange
      exact decide_eq_true ⟨h1, h2⟩
    unfold v_match_kitty
    split
    · rfl
    · split
      · next hne => exact absurd rfl hne
      · dsimp only
        rw [hr]
        rfl
  · intro hv
    refine ⟨?_, by decide⟩
    unfold v_match_win32
    simp [Params.vkGet, hv]

/-- C9 witness: a standalone left-Shift press under each protocol (code
57441 for Kitty, virtual-key 16 for Win32) is Ignored by the respective
verifier, with no pass and no FAIL log entry. -/
theorem pure_modifier_events_ignored_witness :
    (v_match_kitty 97 1 ⟨[27], "KITTY", Params.kitty [57441] 1 1, false, "ModKey"⟩ =
        some (false, none) ∧
      verdictEffect (false, none) = (false, false)) ∧
    (v_match_win32 112 none none ⟨[27], "WIN32", Params.win32 16 0 1 16, false, "Shift"⟩ =
        some (false, none) ∧
      verdictEffect (false, none) = (false, false)) := by
  have h := pure_modifier_events_ignored [57441] 57441 [] 1 1 97 1 [27] false "ModKey"
    16 0 1 16 112 none none [27] false "Shift"
  exact ⟨h.1 rfl (by decide) (by decide), h.2 (by decide)⟩

/-- C10: the Win32 decoder never parses the scan-code field (position 2)
or the repeat-count field (position 6): a frame whose fields 1, 3, 4, 5
are digit strings decodes to a WIN32 event for arbitrary semicolon-free
text in positions 2 and 6. -/
theorem win32_ignores_scan_and_repeat_fields
    (raw : List Nat) (f0 s1 f2 f3 f4 s5 : List Char)
    (hdec : decode_utf8_safe raw =
      'E' :: 'S' :: 'C' :: '[' ::
        ((f0 ++ ';' :: (s1 ++ ';' :: (f2 ++ ';' :: (f3 ++ ';' :: (f4 ++ ';' :: s5))))) ++ ['_']))
    (hf0 : f0 ≠ []) (hf0d : ∀ c ∈ f0, c.isDigit = true)
    (hf2 : f2 ≠ []) (hf2d : ∀ c ∈ f2, c.isDigit = true)
    (hf3 : f3 ≠ []) (hf3d : ∀ c ∈ f3, c.isDigit = true)
    (hf4 : f4 ≠ []) (hf4d : ∀ c ∈ f4, c.isDigit = true)
    (hs1 : ∀ c ∈ s1, c ≠ ';') (hs5 : ∀ c ∈ s5, c ≠ ';') :
    (parse_win32 raw).protocol = "WIN32" := by
  obtain ⟨n0, hn0⟩ := pyInt_digits f0 hf0 hf0d
  obtain ⟨n2, hn2⟩ := pyInt_digits f2 hf2 hf2d
  obtain ⟨n3, hn3⟩ := pyInt_digits f3 hf3 hf3d
  obtain ⟨n4, hn4⟩ := pyInt_digits f4 hf4 hf4d
  have hlast : ('E' :: 'S' :: 'C' :: '[' ::
      ((f0 ++ ';' :: (s1 ++ ';' :: (f2 ++ ';' :: (f3 ++ ';' :: (f4 ++ ';' :: s5))))) ++ ['_'])).getLast?
      = some '_' := by
    show (('E' :: 'S' :: 'C' :: '[' ::
      (f0 ++ ';' :: (s1 ++ ';' :: (f2 ++ ';' :: (f3 ++ ';' :: (f4 ++ ';' :: s5)))))) ++ ['_']).getLast?
      = some '_'
    exact List.getLast?_concat _
  have hsp : pySplit ';'
      (f0 ++ ';' :: (s1 ++ ';' :: (f2 ++ ';' :: (f3 ++ ';' :: (f4 ++ ';' :: s5)))))
      = [f0, s1, f2, f3, f4, s5] := by
    rw [pySplit_append ';' f0 _ (fun c hc => digit_ne_semi c (hf0d c hc)),
      pySplit_append ';' s1 _ hs1,
      pySplit_append ';' f2 _ (fun c hc => digit_ne_semi c (hf2d c hc)),
      pySplit_append ';' f3 _ (fun c hc => digit_ne_semi c (hf3d c hc)),
      pySplit_append ';' f4 _ (fun c hc => digit_ne_semi c (hf4d c hc)),
      pySplit_sepFree ';' s5 hs5]
  have h0 : orZeroInt f0 = some n0 := by
    unfold orZeroInt
    rw [if_neg hf0]
    exact hn0
  have h2 : orZeroInt f2 = some n2 := by
    unfold orZeroInt
    rw [if_neg hf2]
    exact hn2
  have h3 : orZeroInt f3 = some n3 := by
    unfold orZeroInt
    rw [if_neg hf3]
    exact hn3
  have h4 : orZeroInt f4 = some n4 := by
    unfold orZeroInt
    rw [if_neg hf4]
    exact hn4
  have hfields : win32Fields [f0, s1, f2, f3, f4, s5] = some (n0, n2, n3, n4) := by
    unfold win32Fields
    simp [h0, h2, h3, h4]
  unfold parse_win32 parseWin32Dec
  rw [hdec, hlast]
  have hguard : (!(some '_' == some '_') || !pyStarts ['E', 'S', 'C', '[']
      ('E' :: 'S' :: 'C' :: '[' ::
        ((f0 ++ ';' :: (s1 ++ ';' :: (f2 ++ ';' :: (f3 ++ ';' :: (f4 ++ ';' :: s5))))) ++ ['_']))) = false := rfl
  rw [hguard]
  dsimp only [List.drop]
  rw [List.dropLast_concat, hsp, hfields]
  rfl

/-- C10 witness: the frame built from the text `ESC [ 6 5 ; x x ; 9 7 ;
1 ; 8 ; z z _`, with non-integer text in the scan-code and repeat-count
positions, still decodes to a WIN32 event. -/
theorem win32_ignores_scan_and_repeat_fields_witness :
    (parse_win32 [27, 91, 54, 53, 59, 120, 120, 59, 57, 55, 59, 49, 59, 56, 59, 122, 122,
      95]).protocol = "WIN32" :=
  win32_ignores_scan_and_repeat_fields
    [27, 91, 54, 53, 59, 120, 120, 59, 57, 55, 59, 49, 59, 56, 59, 122, 122, 95]
    ['6', '5'] ['x', 'x'] ['9', '7'] ['1'] ['8'] ['z', 'z']
    (by decide) (by decide) (by decide) (by decide) (by decide) (by decide) (by decide)
    (by decide) (by decide) (by decide) (by decide)
